import Mathlib

set_option maxHeartbeats 1000000

/- Shallow embedding of the crawl-and-interact engine:
   `src/services/crawler_service.py` (CrawlerService) and
   `src/services/webdriver_service.py` (WebDriverManager, InteractionTester).
   External collaborators (aiohttp network, BeautifulSoup parsing, urljoin,
   Selenium browser sessions) are modelled as oracles passed in as arguments;
   everything the Python code itself computes is translated directly. -/

/-! ## String utilities (Python `in`, `lower`, `strip`, `split`) -/

/-- Boolean test that `p` is an initial segment of the second list. -/
def startsWithChars : List Char → List Char → Bool
  | [], _ => true
  | _ :: _, [] => false
  | p :: ps, c :: cs => p == c && startsWithChars ps cs

/-- Boolean test that `pat` occurs as a contiguous sublist. -/
def hasSubChars (pat : List Char) : List Char → Bool
  | [] => pat.isEmpty
  | c :: cs => startsWithChars pat (c :: cs) || hasSubChars pat cs

/-- Python's substring test `pat in s`. -/
def containsSub (s pat : String) : Bool := hasSubChars pat.toList s.toList

/-- Python `s.lower()` (ASCII case mapping, which is all the crawler's fixed
keyword vocabulary needs). List-based so that the kernel can evaluate it. -/
def lowerStr (s : String) : String := String.mk (s.data.map Char.toLower)

/-- Whitespace stripped by Python's `str.strip()`. -/
def pyWhitespace (c : Char) : Bool :=
  c == ' ' || c == '\t' || c == '\n' || c == '\r' || c == '\x0b' || c == '\x0c'

/-- Python `s.strip()`. -/
def trimStr (s : String) : String :=
  String.mk (((s.data.dropWhile pyWhitespace).reverse.dropWhile pyWhitespace).reverse)

/-- Python `s.startswith(pre)`. -/
def strStartsWith (s pre : String) : Bool := startsWithChars pre.toList s.data

/-- Split a character list at every occurrence of `sep` (Python `s.split(sep)`
for a one-character separator). -/
def splitOnChar (sep : Char) : List Char → List (List Char)
  | [] => [[]]
  | c :: rest =>
    let r := splitOnChar sep rest
    if c == sep then [] :: r
    else
      match r with
      | [] => [[c]]
      | h :: t => (c :: h) :: t

/-- Python `s.split('\n')`. -/
def splitLines (s : String) : List String := (splitOnChar '\n' s.data).map String.mk

/-- Python `sep.join(parts)`. -/
def joinWith (sep : String) : List String → String
  | [] => ""
  | [x] => x
  | x :: xs => x ++ sep ++ joinWith sep xs

/-- Characters strictly before the first occurrence of `marker`; `none` if absent. -/
def takeBeforeMarker (marker : List Char) : List Char → Option (List Char)
  | [] => none
  | c :: cs =>
    if startsWithChars marker (c :: cs) then some []
    else (takeBeforeMarker marker cs).map (c :: ·)

/-- Characters strictly after the first occurrence of `marker`; `none` if absent. -/
def dropThroughMarker (marker : List Char) : List Char → Option (List Char)
  | [] => none
  | c :: cs =>
    if startsWithChars marker (c :: cs) then some ((c :: cs).drop marker.length)
    else dropThroughMarker marker cs

/-- Scheme of a URL, as in `urlparse(url).scheme` for URLs of the usual
`scheme://host/path` shape (the only shape the crawler manipulates). -/
def urlScheme (u : String) : String :=
  match takeBeforeMarker "://".toList u.toList with
  | some l => lowerStr (String.mk l)
  | none => ""

/-- Network location of a URL, as in `urlparse(url).netloc` for URLs of the
usual `scheme://host/path` shape. -/
def netloc (u : String) : String :=
  match dropThroughMarker "://".toList u.toList with
  | some rest => String.mk (rest.takeWhile (fun c => c != '/' && c != '?' && c != '#'))
  | none => ""

/-- CrawlerService._is_same_domain: compare `urlparse(url).netloc` with
`urlparse(domain).netloc`. -/
def is_same_domain (url domain : String) : Bool := netloc url == netloc domain

/-- The `domain` string built at the top of `crawl_website`:
`f"{parsed_url.scheme}://{parsed_url.netloc}"`. -/
def domainOf (u : String) : String := urlScheme u ++ "://" ++ netloc u

/-- Python `line.split(':', 1)[1]` (used by the robots.txt parser on lines that
are known to contain a colon); `""` when no colon is present. -/
def splitAfterColon (s : String) : String :=
  match dropThroughMarker [':'] s.toList with
  | some r => String.mk r
  | none => ""

/-! ## Parsed HTML documents (the BeautifulSoup collaborator) -/

/-- A node of the parsed HTML document handed back by BeautifulSoup: tag name,
attributes, the multi-valued `class` attribute, the flattened text returned by
`get_text()`, and child elements. A soup is a `List Elem` of top-level nodes. -/
inductive Elem : Type where
  | mk (tag : String) (attrs : List (String × String)) (classes : List String)
       (text : String) (children : List Elem)

def Elem.tag : Elem → String | .mk t _ _ _ _ => t
def Elem.attrs : Elem → List (String × String) | .mk _ a _ _ _ => a
def Elem.classes : Elem → List String | .mk _ _ c _ _ => c
def Elem.text : Elem → String | .mk _ _ _ x _ => x
def Elem.children : Elem → List Elem | .mk _ _ _ _ cs => cs

mutual
/-- An element together with all of its descendants, in document (preorder)
order; `find_all` over a subtree filters this list. -/
def allElems : Elem → List Elem
  | .mk t a c x cs => .mk t a c x cs :: allElemsList cs
/-- All elements of a forest together with their descendants, preorder. -/
def allElemsList : List Elem → List Elem
  | [] => []
  | e :: es => allElems e ++ allElemsList es
end

/-- Python `element.get(key, default)` for single-valued attributes. -/
def getAttr (e : Elem) (k dflt : String) : String := ((e.attrs).lookup k).getD dflt

/-- Python `element.has_attr(key)`. -/
def hasAttr (e : Elem) (k : String) : Bool := ((e.attrs).lookup k).isSome

/-- BeautifulSoup `soup.find(tagName)`: first matching element in document order. -/
def find_first_tag (soup : List Elem) (t : String) : Option Elem :=
  ((allElemsList soup).filter (fun e => e.tag == t)).head?

/-- BeautifulSoup `soup.find('meta', attrs={'name': nameVal})`. -/
def find_meta (soup : List Elem) (nameVal : String) : Option Elem :=
  ((allElemsList soup).filter
    (fun e => e.tag == "meta" && getAttr e "name" "" == nameVal)).head?

/-! ## Page analysis (CrawlerService._crawl_page, lines 130-220) -/

/-- One `<input>/<select>/<textarea>` descriptor of a form (lines 175-182). -/
structure FormInput where
  type : String
  name : String
  required : Bool
  placeholder : String
deriving DecidableEq

/-- One `<form>` descriptor (lines 167-184). -/
structure FormInfo where
  action : String
  method : String
  inputs : List FormInput
deriving DecidableEq

/-- One button descriptor (lines 187-195). The source stores the joined class
list under the dict key `'class'`, a Lean keyword, hence the field name. -/
structure ButtonInfo where
  text : String
  type : String
  className : String
  id : String
deriving DecidableEq

/-- CrawlerService.PageInfo (crawler_service.py lines 14-28). `load_time` is
wall-clock time measured around the network fetch, supplied by the oracle. -/
structure PageInfo where
  url : String
  title : String
  page_type : String
  load_time : ℚ
  status_code : Nat
  content_length : Nat
  links : List String
  forms : List FormInfo
  buttons : List ButtonInfo
  images : List String
  meta_description : String
  h1_tags : List String
  errors : List String

/-- CrawlerService._classify_page_type (lines 222-264): fixed-priority keyword
cascade over the lowercased URL, then content-text heuristics, else general. -/
def classify_page_type (url title content : String) : String :=
  let url_lower := lowerStr url
  let _title_lower := lowerStr title
  let content_lower := lowerStr content
  if ["landing", "lp", "campaign"].any (fun k => containsSub url_lower k) then "landing"
  else if ["product", "item", "/p/", "shop"].any (fun k => containsSub url_lower k) then "product"
  else if ["checkout", "cart", "payment", "billing"].any (fun k => containsSub url_lower k) then "checkout"
  else if ["thank", "confirmation", "success", "complete"].any (fun k => containsSub url_lower k) then "confirmation"
  else if ["contact", "support", "help"].any (fun k => containsSub url_lower k) then "contact"
  else if ["about", "team", "company"].any (fun k => containsSub url_lower k) then "about"
  else if ["blog", "news", "article", "post"].any (fun k => containsSub url_lower k) then "content"
  else if containsSub content_lower "add to cart" || containsSub content_lower "buy now" then "product"
  else if containsSub content_lower "sign up" || containsSub content_lower "get started" then "signup"
  else "general"

/-- CrawlerService._detect_page_errors (lines 283-318), appending each error
string exactly when its condition holds, in source order. -/
def detect_page_errors (soup : List Elem) (status_code : Nat) : List String :=
  let errors : List String := []
  let errors := if status_code ≥ 400 then errors ++ ["HTTP " ++ toString status_code ++ " error"] else errors
  let errors :=
    match find_first_tag soup "title" with
    | none => errors ++ ["Missing or empty title tag"]
    | some t => if trimStr t.text == "" then errors ++ ["Missing or empty title tag"] else errors
  let errors :=
    match find_meta soup "description" with
    | none => errors ++ ["Missing meta description"]
    | some m => if trimStr (getAttr m "content" "") == "" then errors ++ ["Missing meta description"] else errors
  let h1_tags := (allElemsList soup).filter (fun e => e.tag == "h1")
  let errors :=
    if h1_tags.length == 0 then errors ++ ["No H1 tags found"]
    else if h1_tags.length > 1 then
      errors ++ ["Multiple H1 tags found (" ++ toString h1_tags.length ++ ")"]
    else errors
  let errors :=
    match find_meta soup "viewport" with
    | none => errors ++ ["Missing viewport meta tag"]
    | some _ => errors
  let broken_images := (allElemsList soup).filter
    (fun e => e.tag == "img" && (e.attrs).lookup "src" == some "")
  let errors :=
    if broken_images.length > 0 then
      errors ++ [toString broken_images.length ++ " images with empty src"]
    else errors
  errors

/-- Link extraction (lines 160-164): every anchor with a non-empty `href` that
does not start with `#`, unresolved. -/
def extract_links (soup : List Elem) : List String :=
  ((allElemsList soup).filter (fun e => e.tag == "a" && hasAttr e "href")).foldl
    (fun acc a =>
      let href := trimStr (getAttr a "href" "")
      if href != "" && !(strStartsWith href "#") then acc ++ [href] else acc) []

/-- Form extraction (lines 167-184). -/
def extract_forms (soup : List Elem) : List FormInfo :=
  ((allElemsList soup).filter (fun e => e.tag == "form")).map (fun f =>
    { action := getAttr f "action" ""
      method := lowerStr (getAttr f "method" "get")
      inputs := ((allElemsList f.children).filter
          (fun e => e.tag == "input" || e.tag == "select" || e.tag == "textarea")).map (fun i =>
        { type := getAttr i "type" "text"
          name := getAttr i "name" ""
          required := hasAttr i "required"
          placeholder := getAttr i "placeholder" "" }) })

/-- The tag-name list the source passes to `find_all` for buttons (line 188).
BeautifulSoup interprets each list entry as a literal tag NAME, so the two
CSS-selector-style entries can never match a real HTML element. -/
def button_find_all_names : List String :=
  ["button", "input[type=\"submit\"]", "input[type=\"button\"]"]

/-- Button extraction (lines 187-195): descriptor text is `get_text().strip()`
falling back to the `value` attribute, type defaults to `button`, class list
joined by spaces, id. -/
def extract_buttons (soup : List Elem) : List ButtonInfo :=
  ((allElemsList soup).filter (fun e => button_find_all_names.contains e.tag)).map (fun b =>
    { text := if trimStr b.text != "" then trimStr b.text else getAttr b "value" ""
      type := getAttr b "type" "button"
      className := joinWith " " b.classes
      id := getAttr b "id" "" })

/-- Image extraction (line 198): `src` of every `<img>` that has a `src`
attribute, including empty strings. -/
def extract_images (soup : List Elem) : List String :=
  ((allElemsList soup).filter (fun e => e.tag == "img" && hasAttr e "src")).map
    (fun i => getAttr i "src" "")

/-- What the network-plus-parser collaborators hand `_crawl_page` for one URL:
HTTP status, decoded body text, the BeautifulSoup parse of that body, and the
measured wall-clock load time. -/
structure Fetched where
  status : Nat
  body : String
  soup : List Elem
  load_time : ℚ

/-- CrawlerService._crawl_page (lines 130-220). The oracle `net` models the
`aiohttp` GET plus BeautifulSoup parse; `none` models a raised exception
(timeout / connection failure), which the caller turns into a broken link. -/
def crawl_page (net : String → Option Fetched) (url : String) : Option PageInfo :=
  match net url with
  | none => none
  | some r =>
    let title_text :=
      match find_first_tag r.soup "title" with
      | some t => trimStr t.text
      | none => ""
    let meta_description :=
      match find_meta r.soup "description" with
      | some m => getAttr m "content" ""
      | none => ""
    let h1_tags := ((allElemsList r.soup).filter (fun e => e.tag == "h1")).map
      (fun h => trimStr h.text)
    some { url := url
           title := title_text
           page_type := classify_page_type url title_text r.body
           load_time := r.load_time
           status_code := r.status
           content_length := r.body.length
           links := extract_links r.soup
           forms := extract_forms r.soup
           buttons := extract_buttons r.soup
           images := extract_images r.soup
           meta_description := meta_description
           h1_tags := h1_tags
           errors := detect_page_errors r.soup r.status }

/-! ## The crawl loop (CrawlerService.crawl_website, lines 46-128) -/

/-- Aggregate crawl statistics (the `crawl_stats` dict, lines 111-117). -/
structure CrawlStats where
  total_pages : Nat
  broken_links : Nat
  external_links : Nat
  crawl_time : ℚ
  pages_per_second : ℚ

/-- CrawlerService.SiteMap (lines 30-37); `funnel_pages` is the insertion-order
dict `page_type -> [urls]`, modelled as an association list. -/
structure SiteMap where
  domain : String
  pages : List PageInfo
  broken_links : List String
  external_links : List String
  crawl_stats : CrawlStats
  funnel_pages : List (String × List String)

/-- The six-key dict `_identify_funnel_pages` starts from (lines 268-275). -/
def funnel_init : List (String × List String) :=
  [("landing", []), ("product", []), ("checkout", []),
   ("confirmation", []), ("signup", []), ("contact", [])]

/-- Replace the value stored under the first occurrence of key `k` by `f` of it
(Python dict entry mutation `d[k].append(u)` on an existing key). -/
def assocUpdate (k : String) (f : List String → List String) :
    List (String × List String) → List (String × List String)
  | [] => []
  | (k', v) :: rest =>
    if k' == k then (k', f v) :: rest else (k', v) :: assocUpdate k f rest

/-- The loop body of `_identify_funnel_pages` (lines 277-279): append the
page's URL to the bucket of its `page_type` when that type is a key. -/
def funnelStep (funnel_pages : List (String × List String)) (page : PageInfo) :
    List (String × List String) :=
  if (funnel_pages.map Prod.fst).contains page.page_type then
    assocUpdate page.page_type (fun l => l ++ [page.url]) funnel_pages
  else funnel_pages

/-- CrawlerService._identify_funnel_pages (lines 266-281). -/
def identify_funnel_pages (pages : List PageInfo) : List (String × List String) :=
  pages.foldl funnelStep funnel_init

/-- The crawl-loop state of `crawl_website` (lines 63-68), minus the frontier
which the loop threads separately. `fetch_log` is pure instrumentation: it
records, in order, every URL passed to `_crawl_page`, so that the
visited-URLs-are-never-refetched property can be stated; no branch reads it. -/
structure CrawlAcc where
  crawled : List String
  pages : List PageInfo
  broken_links : List String
  external_links : List String
  fetch_log : List String

/-- `set.add`: the frontier `to_crawl` is a Python set, modelled as a
duplicate-free list; insertion is a no-op on members. -/
def setInsert (s : List String) (x : String) : List String :=
  if x ∈ s then s else s ++ [x]

/-- Lines 91-96: resolve each extracted link against the current page's URL
with `urljoin` (oracle `uj`) and route it to the frontier (same domain) or the
external-links list (off domain, appended once per occurrence). `urljoin` can
itself raise (`ValueError: Invalid IPv6 URL` on a href like `http://[::1`), so
the oracle is partial: `none` models a raise, which aborts the remaining links
while the routing already done for earlier links persists (the Python loop
mutates `to_crawl` and `external_links` in place). The returned flag records
whether a raise happened. (`_is_same_domain` cannot raise: lines 356-363 catch
its exceptions and return False.) -/
def addLinksExc (uj : String → String → Option String) (domain current : String) :
    List String → List String → List String → List String × List String × Bool
  | [], toC, ext => (toC, ext, false)
  | link :: links, toC, ext =>
    match uj current link with
    | none => (toC, ext, true)
    | some absolute_link =>
      if is_same_domain absolute_link domain then
        addLinksExc uj domain current links (setInsert toC absolute_link) ext
      else
        addLinksExc uj domain current links toC (ext ++ [absolute_link])

/-- The `while to_crawl and len(crawled) < self.max_pages` loop (lines 73-103).
The Python loop always terminates: an iteration either pops a URL without
growing anything (skip / external / broken) or grows `crawled`, which the
guard bounds by `max_pages`; we index the recursion by explicit fuel and state
every loop property for all fuel values, which covers the terminating run.
The set `pop` order is unspecified in Python; we pop the head, which the spec
explicitly allows ("any pop policy is acceptable"). The `try` at lines 85-103
spans `_crawl_page`, the `pages`/`crawled` updates, AND the link-resolution
loop: when `urljoin` raises after the page was appended and the URL marked
visited, the handler at line 103 appends that same (already visited) URL to
`broken_links` as well, and the politeness sleep is skipped. -/
def crawlLoop (net : String → Option Fetched) (uj : String → String → Option String)
    (domain : String) (max_pages : Nat) : Nat → List String → CrawlAcc → CrawlAcc
  | 0, _, acc => acc
  | _ + 1, [], acc => acc
  | fuel + 1, current :: rest, acc =>
    if acc.crawled.length < max_pages then
      if current ∈ acc.crawled then
        crawlLoop net uj domain max_pages fuel rest acc
      else if is_same_domain current domain then
        match crawl_page net current with
        | some page_info =>
          match addLinksExc uj domain current page_info.links rest acc.external_links with
          | (toC, ext, raised) =>
            crawlLoop net uj domain max_pages fuel toC
              { crawled := acc.crawled ++ [current]
                pages := acc.pages ++ [page_info]
                broken_links :=
                  if raised then acc.broken_links ++ [current] else acc.broken_links
                external_links := ext
                fetch_log := acc.fetch_log ++ [current] }
        | none =>
          crawlLoop net uj domain max_pages fuel rest
            { acc with broken_links := acc.broken_links ++ [current]
                       fetch_log := acc.fetch_log ++ [current] }
      else
        crawlLoop net uj domain max_pages fuel rest
          { acc with external_links := acc.external_links ++ [current] }
    else acc

/-- The empty initial crawl state (lines 64-68). -/
def initAcc : CrawlAcc := ⟨[], [], [], [], []⟩

/-- The loop's final state for a whole crawl seeded with `start_url`. -/
def crawl_final (net : String → Option Fetched) (uj : String → String → Option String)
    (max_pages fuel : Nat) (start_url : String) : CrawlAcc :=
  crawlLoop net uj (domainOf start_url) max_pages fuel [start_url] initAcc

/-- CrawlerService.crawl_website (lines 46-128): run the loop, then build the
funnel grouping and the aggregate stats. `elapsed` is the measured wall-clock
crawl time (the robots.txt pre-check is advisory only: its result is logged
and otherwise unused, lines 59-61, so it does not appear in the result). -/
def crawl_website (net : String → Option Fetched) (uj : String → String → Option String)
    (elapsed : ℚ) (max_pages fuel : Nat) (start_url : String) : SiteMap :=
  let domain := domainOf start_url
  let fin := crawl_final net uj max_pages fuel start_url
  { domain := domain
    pages := fin.pages
    broken_links := fin.broken_links
    external_links := fin.external_links
    crawl_stats :=
      { total_pages := fin.pages.length
        broken_links := fin.broken_links.length
        external_links := fin.external_links.length
        crawl_time := elapsed
        pages_per_second := if 0 < elapsed then (fin.pages.length : ℚ) / elapsed else 0 }
    funnel_pages := identify_funnel_pages fin.pages }

/-- The loop invariant of `crawl_website`, phrased on the loop state: pages and
visited URLs correspond one-to-one in order (each PageInfo's `url` field is the
URL that was fetched), visited URLs are distinct, every visited URL's fetch
succeeds, every visited URL was passed to `_crawl_page` exactly once, every
logged-but-unvisited fetch was a failure, and the visited count respects
`max_pages`. (Nothing is claimed about `broken_links`: a URL lands there both
on a failed fetch and on a `urljoin` raise after a successful fetch, so broken
and visited are NOT disjoint in general.) -/
def CrawlInv (net : String → Option Fetched) (max_pages : Nat) (acc : CrawlAcc) : Prop :=
  acc.pages.map PageInfo.url = acc.crawled
  ∧ acc.crawled.Nodup
  ∧ (∀ u ∈ acc.crawled, (net u).isSome = true)
  ∧ (∀ u ∈ acc.crawled, acc.fetch_log.count u = 1)
  ∧ (∀ u, u ∉ acc.crawled → u ∈ acc.fetch_log → net u = none)
  ∧ acc.crawled.length ≤ max_pages

/-! ## Robots gate (CrawlerService._check_robots_txt, lines 320-354) -/

/-- Outcome of the GET of `domain/robots.txt`: a raised exception (timeout,
connection failure) or a status plus body text. -/
inductive RobotsFetch : Type where
  | failure : RobotsFetch
  | response (status : Nat) (body : String) : RobotsFetch

/-- The simple robots.txt scan (lines 331-343): a `user-agent:` line arms or
disarms the following `disallow:` lines (wildcard `*` or an agent containing
"funnel"); an armed `disallow: /` sets disallow-all. -/
def robots_disallow_all (robots_content : String) : Bool :=
  ((splitLines robots_content).foldl (fun st line =>
    let l := lowerStr (trimStr line)
    if strStartsWith l "user-agent:" then
      let user_agent := trimStr (splitAfterColon l)
      (user_agent == "*" || containsSub user_agent "funnel", st.2)
    else if strStartsWith l "disallow:" && st.1 then
      let disallow_path := trimStr (splitAfterColon l)
      (st.1, st.2 || disallow_path == "/")
    else st) ((false, false) : Bool × Bool)).2

/-- Write-through of `self.robots_cache[domain] = allowed` on the association
list modelling the per-instance dict. -/
def cacheSet (cache : List (String × Bool)) (domain : String) (v : Bool) :
    List (String × Bool) :=
  match cache with
  | [] => [(domain, v)]
  | (k, b) :: rest =>
    if k == domain then (domain, v) :: rest else (k, b) :: cacheSet rest domain v

/-- CrawlerService._check_robots_txt (lines 320-354): answer from the cache if
present; otherwise fetch `domain/robots.txt` (oracle `fetch`, `.failure` for a
raised exception). Only a 200 response is parsed; every non-200 status and
every exception falls through to the fail-open default `true`, which is also
cached. Returns the answer together with the updated cache. -/
def check_robots_txt (fetch : String → RobotsFetch)
    (robots_cache : List (String × Bool)) (domain : String) :
    Bool × List (String × Bool) :=
  match robots_cache.lookup domain with
  | some b => (b, robots_cache)
  | none =>
    match fetch (domain ++ "/robots.txt") with
    | .response status body =>
      if status == 200 then
        let allowed := !robots_disallow_all body
        (allowed, cacheSet robots_cache domain allowed)
      else (true, cacheSet robots_cache domain true)
    | .failure => (true, cacheSet robots_cache domain true)

/-! ## Session pool (WebDriverManager, webdriver_service.py lines 38-143) -/

/-- The pool's mutable state: `driver_pool` tracks every created session,
`available_drivers` the idle ones; sessions are identified by creation index
(`next_id` is the next fresh one). -/
structure PoolState where
  driver_pool : List Nat
  available_drivers : List Nat
  next_id : Nat
deriving DecidableEq

/-- One pool operation. Oracle booleans model whether the underlying Selenium
calls succeed: `createOk` for `create_chrome_driver` (line 83, an exception
propagates before the pool is touched), `sanitizeOk` for the cookie/storage
clearing in `release_driver` (lines 111-113), `quitOk` for `driver.quit()` in
`close_driver` (line 122, an exception skips the removals). -/
inductive PoolOp : Type where
  | get (createOk : Bool) : PoolOp
  | release (d : Nat) (sanitizeOk quitOk : Bool) : PoolOp
  | close (d : Nat) (quitOk : Bool) : PoolOp
  | closeAll : PoolOp

/-- close_driver (lines 119-128): quit, then remove from both lists; a quit
exception is caught and the removals are skipped. -/
def close_driver (s : PoolState) (d : Nat) (quitOk : Bool) : PoolState :=
  if quitOk then
    { s with driver_pool := s.driver_pool.erase d
             available_drivers := s.available_drivers.erase d }
  else s

/-- One step of the pool. `get` mirrors get_driver (lines 91-105): pop an idle
session if any (`list.pop()` takes the last element), else create one only when
`len(driver_pool) < max_drivers`, else wait (state unchanged until an idle
session appears). `release` mirrors release_driver (lines 107-117): sanitize
then append to the idle list, or on sanitize failure fall through to
close_driver. `closeAll` mirrors close_all (lines 130-143): quit everything
(exceptions swallowed) and clear both lists. -/
def poolStep (max_drivers : Nat) (s : PoolState) : PoolOp → PoolState
  | .get createOk =>
    if s.available_drivers.isEmpty = false then
      { s with available_drivers := s.available_drivers.dropLast }
    else if s.driver_pool.length < max_drivers then
      if createOk then
        { s with driver_pool := s.driver_pool ++ [s.next_id], next_id := s.next_id + 1 }
      else s
    else s
  | .release d sanitizeOk quitOk =>
    if sanitizeOk then { s with available_drivers := s.available_drivers ++ [d] }
    else close_driver s d quitOk
  | .close d quitOk => close_driver s d quitOk
  | .closeAll => { s with driver_pool := [], available_drivers := [] }

/-- A fresh WebDriverManager (lines 39-44): both lists empty. -/
def initPool : PoolState := ⟨[], [], 0⟩

/-- The pool state after a sequence of operations on a fresh manager. -/
def runPool (max_drivers : Nat) (ops : List PoolOp) : PoolState :=
  ops.foldl (poolStep max_drivers) initPool

/-! ## Navigation probe (InteractionTester._test_navigation_path, lines 474-510) -/

/-- What the browser session exposes after `driver.get(url)` on one navigation
edge: the (possibly redirected) `driver.current_url`, the elements matching the
conversion-link selector `a[href*='checkout'], a[href*='cart'], a[href*='buy'],
a[href*='signup']`, and `driver.title`. -/
structure NavPage where
  current_url : String
  conversion_links : List String
  title : String

/-- The fixed conversion-keyword vocabulary (lines 482-483). -/
def conversionKeywords : List String :=
  ["checkout", "cart", "buy", "purchase", "order", "signup", "register"]

/-- The per-edge result dict (lines 497-503 on success, 505-510 on error). -/
inductive NavOutcome : Type where
  | ok (link_text url : String) (is_conversion_page : Bool)
       (clicks_to_convert : Nat) (page_title : String) : NavOutcome
  | err (link_text url error : String) : NavOutcome
deriving DecidableEq

/-- InteractionTester._test_navigation_path (lines 474-510). The oracle
`browser` models `driver.get` plus the subsequent DOM queries; `none` models a
raised exception, reported per edge. A page is a conversion page iff its
lowercased current URL contains one of the seven keywords; otherwise, with
`max_depth > 0`, clicks-to-convert is 1 when any conversion link is present on
the page and `max_depth` when none is. -/
def test_navigation_path (browser : String → Option NavPage)
    (url link_text : String) (max_depth : Nat) : NavOutcome :=
  match browser url with
  | none => .err link_text url "exception"
  | some pg =>
    let current_url := lowerStr pg.current_url
    let is_conversion_page :=
      conversionKeywords.any (fun keyword => containsSub current_url keyword)
    let clicks_to_convert :=
      if !is_conversion_page && max_depth > 0 then
        if pg.conversion_links.isEmpty = false then 1 else max_depth
      else 0
    .ok link_text url is_conversion_page clicks_to_convert pg.title

/-! ## Concrete fixtures used by witnesses and counter-evaluations -/

/-- A `urljoin` oracle for runs whose pages only carry well-formed absolute
links, on which `urljoin` returns the link unchanged and cannot raise. -/
def ujId : String → String → Option String := fun _ link => some link

/-- A page whose only link is the href `http://[::1`, which survives the link
filter (non-empty, no leading `#`) but makes `urljoin` raise
`ValueError: Invalid IPv6 URL`. -/
def soupBadLink : List Elem :=
  [Elem.mk "a" [("href", "http://[::1")] [] "bad" []]

/-- Network oracle whose one page carries the malformed href. -/
def netBadLink : String → Option Fetched := fun url =>
  if url == "http://a.com/" then
    some { status := 200, body := "", soup := soupBadLink, load_time := 0 }
  else none

/-- `urljoin` oracle that raises exactly on the malformed IPv6 href. -/
def ujValueError : String → String → Option String := fun _ link =>
  if link == "http://[::1" then none else some link

/-- The example document of the structural-error check: nonempty title, a
viewport meta, two `<h1>` elements, no description meta, no images. -/
def docC5 : List Elem :=
  [Elem.mk "title" [] [] "Home" [],
   Elem.mk "meta" [("name", "viewport"), ("content", "width=device-width")] [] "" [],
   Elem.mk "h1" [] [] "First" [],
   Elem.mk "h1" [] [] "Second" []]

/-- A form whose only clickable control is `<input type="submit" value="Submit">`. -/
def docSubmitInput : List Elem :=
  [Elem.mk "form" [] [] ""
    [Elem.mk "input" [("type", "submit"), ("value", "Submit")] [] "" []]]

/-- A document with a single literal `<button class="btn primary" id="go">Go</button>`. -/
def docButton : List Elem :=
  [Elem.mk "button" [] ["btn", "primary"] "Go" []]

/-- Network oracle whose only page is a landing page. -/
def netC9 : String → Option Fetched := fun url =>
  if url == "http://a.com/landing" then
    some { status := 200, body := "", soup := [], load_time := 0 }
  else none

/-- A page that links to the same off-domain URL twice. -/
def soupC10 : List Elem :=
  [Elem.mk "a" [("href", "http://ext.com/x")] [] "one" [],
   Elem.mk "a" [("href", "http://ext.com/x")] [] "two" []]

/-- Network oracle for the duplicate-external-links run. -/
def netC10 : String → Option Fetched := fun url =>
  if url == "http://a.com/" then
    some { status := 200, body := "", soup := soupC10, load_time := 0 }
  else none

/-- The page the navigation-probe witness visits: no conversion keyword in the
URL and no conversion-selector links on the page. -/
def pgNav : NavPage := { current_url := "https://s.com/page", conversion_links := [], title := "T" }

/-- Browser oracle for the navigation-probe witness. -/
def brNav : String → Option NavPage := fun _ => some pgNav

/-! ## Theorems -/

/-- C3: the robots check fail-open behaviour. On a cache miss, a raised fetch
exception (which includes timeouts) or any non-200 status yields `true` and
caches `true` for the domain; on a cache hit the cached answer is returned with
the cache unchanged and the result does not depend on the fetch oracle at all
(no refetch); and a freshly cached value is what the next lookup sees. -/
theorem c3_robots_fail_open :
    (∀ fetch robots_cache domain, robots_cache.lookup domain = none →
        fetch (domain ++ "/robots.txt") = RobotsFetch.failure →
        check_robots_txt fetch robots_cache domain = (true, cacheSet robots_cache domain true))
    ∧ (∀ fetch robots_cache domain status body, robots_cache.lookup domain = none →
        fetch (domain ++ "/robots.txt") = RobotsFetch.response status body → status ≠ 200 →
        check_robots_txt fetch robots_cache domain = (true, cacheSet robots_cache domain true))
    ∧ (∀ fetch fetch2 robots_cache domain b, robots_cache.lookup domain = some b →
        check_robots_txt fetch robots_cache domain = (b, robots_cache)
        ∧ check_robots_txt fetch robots_cache domain = check_robots_txt fetch2 robots_cache domain)
    ∧ (∀ robots_cache domain v, (cacheSet robots_cache domain v).lookup domain = some v) := by
  have hset : ∀ (robots_cache : List (String × Bool)) domain v,
      (cacheSet robots_cache domain v).lookup domain = some v := by
    intro robots_cache domain v
    induction robots_cache with
    | nil => simp [cacheSet, List.lookup]
    | cons kv rest ih =>
      obtain ⟨k, b⟩ := kv
      by_cases hk : k = domain
      · subst hk
        simp [cacheSet, List.lookup]
      · have hk2 : (k == domain) = false := beq_eq_false_iff_ne.mpr hk
        have hk3 : (domain == k) = false := beq_eq_false_iff_ne.mpr (Ne.symm hk)
        simp [cacheSet, hk2, hk3, List.lookup, ih]
  refine ⟨?_, ?_, ?_, hset⟩
  · intro fetch robots_cache domain hmiss hfail
    unfold check_robots_txt
    rw [hmiss, hfail]
  · intro fetch robots_cache domain status body hmiss hresp hne
    unfold check_robots_txt
    rw [hmiss, hresp]
    simp [hne]
  · intro fetch fetch2 robots_cache domain b hhit
    unfold check_robots_txt
    rw [hhit]
    exact ⟨rfl, rfl⟩

/-- C3 witness: a fetch that always raises yields allowed = true and caches it,
and the second query answers from the cache. -/
theorem c3_robots_fail_open_witness :
    check_robots_txt (fun _ => RobotsFetch.failure) [] "https://a.com"
      = (true, [("https://a.com", true)])
    ∧ check_robots_txt (fun _ => RobotsFetch.failure) [("https://a.com", true)] "https://a.com"
      = (true, [("https://a.com", true)]) :=
  ⟨c3_robots_fail_open.1 (fun _ => RobotsFetch.failure) [] "https://a.com" rfl rfl,
   (c3_robots_fail_open.2.2.1 (fun _ => RobotsFetch.failure) (fun _ => RobotsFetch.failure)
     [("https://a.com", true)] "https://a.com" true rfl).1⟩

/-- C4: the page-type classifier checks URL keyword sets in the fixed priority
order landing, product, checkout, confirmation, contact, about, content, then
the content-text heuristics for product and signup, else general, first match
winning. In particular a URL containing "landing" classifies as landing no
matter what the body text says, and each later rule fires only when all
earlier ones miss (one concrete instance per boundary below). -/
theorem c4_classification_priority :
    (∀ url title content, containsSub (lowerStr url) "landing" = true →
        classify_page_type url title content = "landing")
    ∧ classify_page_type "https://x.com/landing/promo" "Promo"
        "<html><body><button>Add to Cart</button></body></html>" = "landing"
    ∧ classify_page_type "https://x.com/shop/cart" "" "" = "product"
    ∧ classify_page_type "https://x.com/cart/thank-you" "" "" = "checkout"
    ∧ classify_page_type "https://x.com/thank-you/contact" "" "" = "confirmation"
    ∧ classify_page_type "https://x.com/contact/about" "" "" = "contact"
    ∧ classify_page_type "https://x.com/about/blog" "" "" = "about"
    ∧ classify_page_type "https://x.com/blog/a" "" "Sign up" = "content"
    ∧ classify_page_type "https://x.com/page" "" "Add to Cart now" = "product"
    ∧ classify_page_type "https://x.com/page" "" "Buy Now and Sign Up" = "product"
    ∧ classify_page_type "https://x.com/page" "" "Sign up today" = "signup"
    ∧ classify_page_type "https://x.com/page" "" "hello" = "general" := by
  refine ⟨?_, by decide, by decide, by decide, by decide, by decide, by decide,
          by decide, by decide, by decide, by decide, by decide⟩
  intro url title content h
  simp [classify_page_type, List.any_cons, h]

/-- C4 witness: the spec's own example, URL rule beating the content rule. -/
theorem c4_classification_priority_witness :
    classify_page_type "https://x.com/landing/promo" "" "Add to Cart" = "landing" :=
  c4_classification_priority.1 "https://x.com/landing/promo" "" "Add to Cart" (by decide)

/-- C5: on a success status, a document with exactly two `<h1>` elements and no
meta-description tag — and which is otherwise unremarkable to the detector
(nonempty title, a viewport meta, no empty-src images, without which further
independent error strings would be appended) — yields exactly the error set
containing "Missing meta description" and "Multiple H1 tags found (2)",
compared order-independently. -/
theorem c5_structural_errors (soup : List Elem) (status_code : Nat)
    (hstatus : status_code < 400)
    (htitle : ∃ t, find_first_tag soup "title" = some t ∧ trimStr t.text ≠ "")
    (hdesc : find_meta soup "description" = none)
    (hh1 : ((allElemsList soup).filter (fun e => e.tag == "h1")).length = 2)
    (hview : ∃ v, find_meta soup "viewport" = some v)
    (himg : ((allElemsList soup).filter
        (fun e => e.tag == "img" && (e.attrs).lookup "src" == some "")).length = 0) :
    (detect_page_errors soup status_code).Perm
      ["Missing meta description", "Multiple H1 tags found (2)"] := by
  obtain ⟨t, ht, htx⟩ := htitle
  obtain ⟨v, hv⟩ := hview
  have hs : ¬ status_code ≥ 400 := by omega
  have htx2 : (trimStr t.text == "") = false := beq_eq_false_iff_ne.mpr htx
  apply List.Perm.of_eq
  simp [detect_page_errors, ht, hdesc, hh1, hv, himg, hs, htx2]
  rfl

/-- C5 witness: the concrete example document (two `<h1>`, no description
meta, title and viewport present) at status 200. -/
theorem c5_structural_errors_witness :
    (detect_page_errors docC5 200).Perm
      ["Missing meta description", "Multiple H1 tags found (2)"] :=
  c5_structural_errors docC5 200 (by decide)
    ⟨Elem.mk "title" [] [] "Home" [], rfl, by decide⟩ rfl rfl
    ⟨Elem.mk "meta" [("name", "viewport"), ("content", "width=device-width")] [] "" [], rfl⟩ rfl

/-- C6: the button extractor misses submit/button inputs. The source passes
CSS-selector-style strings as BeautifulSoup tag names, so a document whose only
clickable control is `<input type="submit" value="Submit">` produces an empty
buttons list, while a literal `<button>` still produces its one descriptor
(text with value fallback, type defaulting to button, classes joined, id). -/
theorem c6_buttons_miss_submit_inputs :
    extract_buttons docSubmitInput = []
    ∧ extract_buttons docButton
        = [{ text := "Go", type := "button", className := "btn primary", id := "" }] :=
  ⟨rfl, rfl⟩

/-- C7: every successfully probed navigation edge is classified a conversion
page iff its (lowercased) post-navigation URL contains one of the seven fixed
keywords, and when it is not one and `max_depth > 0` the estimated
clicks-to-convert is exactly 1 when a conversion-selector link is present on
the page and exactly `max_depth` when none is — no other value. -/
theorem c7_navigation_conversion (browser : String → Option NavPage)
    (url link_text : String) (max_depth : Nat) (pg : NavPage)
    (h : browser url = some pg) :
    ∃ conv clicks,
      test_navigation_path browser url link_text max_depth
        = NavOutcome.ok link_text url conv clicks pg.title
      ∧ (conv = true ↔ ∃ k ∈ conversionKeywords, containsSub (lowerStr pg.current_url) k = true)
      ∧ (conv = false → 0 < max_depth →
          ((pg.conversion_links ≠ [] → clicks = 1)
            ∧ (pg.conversion_links = [] → clicks = max_depth))) := by
  unfold test_navigation_path
  rw [h]
  refine ⟨_, _, rfl, ?_, ?_⟩
  · simp [List.any_eq_true]
  · intro hconv hd
    rw [hconv]
    constructor
    · intro hne
      have hie : pg.conversion_links.isEmpty = false := by
        simpa [List.isEmpty_iff] using hne
      simp [hie, hd]
    · intro he
      simp [he, hd]

/-- C7 witness: an edge to a keyword-free URL on a page without conversion
links gets clicks-to-convert equal to max_depth = 3. -/
theorem c7_navigation_conversion_witness :
    test_navigation_path brNav "https://s.com/page" "Home" 3
      = NavOutcome.ok "Home" "https://s.com/page" false 3 "T" := by
  obtain ⟨conv, clicks, heq, hiff, hcl⟩ :=
    c7_navigation_conversion brNav "https://s.com/page" "Home" 3 pgNav rfl
  have hconv : conv = false := by
    cases hc : conv
    · rfl
    · exact absurd (hiff.mp hc) (by decide)
  have hck : clicks = 3 := (hcl hconv (by decide)).2 rfl
  rw [heq, hconv, hck]
  rfl

/-- Every single pool operation preserves the ceiling on tracked sessions. -/
theorem poolStep_length_le (max_drivers : Nat) (s : PoolState) (op : PoolOp)
    (h : s.driver_pool.length ≤ max_drivers) :
    (poolStep max_drivers s op).driver_pool.length ≤ max_drivers := by
  cases op with
  | get createOk =>
    unfold poolStep
    by_cases ha : s.available_drivers.isEmpty = false
    · simp [ha, h]
    · by_cases hlt : s.driver_pool.length < max_drivers
      · by_cases hc : createOk = true
        · simp [ha, hlt, hc]
          omega
        · simp [ha, hlt, hc, h]
      · simp [ha, hlt, h]
  | release d sanitizeOk quitOk =>
    unfold poolStep
    by_cases hs : sanitizeOk = true
    · simp [hs, h]
    · simp only [hs]
      unfold close_driver
      by_cases hq : quitOk = true
      · simp [hq]
        exact le_trans (List.Sublist.length_le (List.erase_sublist _ _)) h
      · simp [hq, h]
  | close d quitOk =>
    unfold poolStep close_driver
    by_cases hq : quitOk = true
    · simp [hq]
      exact le_trans (List.Sublist.length_le (List.erase_sublist _ _)) h
    · simp [hq, h]
  | closeAll =>
    unfold poolStep
    simp

/-- C8: across every operation sequence on a fresh manager, the tracked-session
list never exceeds the ceiling, and an acquire changes the tracked list only
when the idle list is empty, the tracked count is strictly below the ceiling,
and driver creation succeeds (otherwise it hands out an idle session or
waits). -/
theorem c8_pool_ceiling :
    (∀ max_drivers ops, (runPool max_drivers ops).driver_pool.length ≤ max_drivers)
    ∧ (∀ max_drivers (s : PoolState) createOk,
        (poolStep max_drivers s (PoolOp.get createOk)).driver_pool ≠ s.driver_pool →
        s.available_drivers = [] ∧ s.driver_pool.length < max_drivers ∧ createOk = true) := by
  constructor
  · intro max_drivers ops
    have main : ∀ (l : List PoolOp) (s : PoolState), s.driver_pool.length ≤ max_drivers →
        (l.foldl (poolStep max_drivers) s).driver_pool.length ≤ max_drivers := by
      intro l
      induction l with
      | nil => intro s h; exact h
      | cons op rest ih =>
        intro s h
        exact ih _ (poolStep_length_le max_drivers s op h)
    exact main ops initPool (by simp [initPool])
  · intro max_drivers s createOk h
    unfold poolStep at h
    by_cases ha : s.available_drivers.isEmpty = false
    · simp [ha] at h
    · have ha2 : s.available_drivers = [] := by
        simpa [List.isEmpty_iff] using ha
      by_cases hlt : s.driver_pool.length < max_drivers
      · by_cases hc : createOk = true
        · exact ⟨ha2, hlt, hc⟩
        · simp [ha, hlt, hc] at h
      · simp [ha, hlt] at h

/-- C8 witness: on an empty pool with ceiling 1, an acquire that changes the
tracked list implies the idle list was empty and the count was below the
ceiling. -/
theorem c8_pool_ceiling_witness :
    initPool.available_drivers = [] ∧ initPool.driver_pool.length < 1 ∧ true = true :=
  c8_pool_ceiling.2 1 initPool true (by decide)

/-- A successful `_crawl_page` call returns a record whose `url` field is the
requested URL, and witnesses a successful network fetch. -/
theorem crawl_page_eq_some {net : String → Option Fetched} {u : String} {pi : PageInfo}
    (h : crawl_page net u = some pi) : pi.url = u ∧ (net u).isSome = true := by
  unfold crawl_page at h
  cases hn : net u with
  | none => rw [hn] at h; exact absurd h (by simp)
  | some r =>
    rw [hn] at h
    injection h with h
    subst h
    exact ⟨rfl, rfl⟩

/-- A failed `_crawl_page` call is exactly a failed network fetch. -/
theorem crawl_page_eq_none {net : String → Option Fetched} {u : String}
    (h : crawl_page net u = none) : net u = none := by
  unfold crawl_page at h
  cases hn : net u with
  | none => rfl
  | some r => rw [hn] at h; exact absurd h (by simp)

/-- Occurrence count after appending one element. -/
theorem count_append_singleton (l : List String) (x u : String) :
    (l ++ [x]).count u = l.count u + if u = x then 1 else 0 := by
  by_cases h : u = x <;> simp [List.count_append, List.count_singleton', h]

/-- The crawl-loop invariant is preserved by any number of loop iterations,
for every fuel value, frontier, and starting state — including the path where
link resolution raises and the visited URL is also appended to `broken_links`
(which no invariant clause constrains). -/
theorem crawlLoop_inv (net : String → Option Fetched) (uj : String → String → Option String)
    (domain : String) (max_pages : Nat) :
    ∀ (fuel : Nat) (toC : List String) (acc : CrawlAcc),
      CrawlInv net max_pages acc →
      CrawlInv net max_pages (crawlLoop net uj domain max_pages fuel toC acc) := by
  intro fuel
  induction fuel with
  | zero => intro toC acc h; simpa [crawlLoop] using h
  | succ n ih =>
    intro toC acc h
    match toC with
    | [] => simpa [crawlLoop] using h
    | current :: rest =>
      simp only [crawlLoop]
      by_cases hlt : acc.crawled.length < max_pages
      · simp only [hlt, if_true]
        by_cases hmem : current ∈ acc.crawled
        · simp only [hmem, if_true]
          exact ih rest acc h
        · simp only [hmem, if_false]
          by_cases hdom : is_same_domain current domain = true
          · simp only [hdom, if_true]
            obtain ⟨h1, h2, h3, h5, h6, h7⟩ := h
            cases hcp : crawl_page net current with
            | some page_info =>
              obtain ⟨hurl, hsome⟩ := crawl_page_eq_some hcp
              rcases haL : addLinksExc uj domain current page_info.links rest
                  acc.external_links with ⟨toC2, ext, raised⟩
              apply ih
              have hlog : current ∉ acc.fetch_log := by
                intro hin
                have := h6 current hmem hin
                rw [this] at hsome
                exact absurd hsome (by simp)
              refine ⟨?_, ?_, ?_, ?_, ?_, ?_⟩
              · simp [h1, hurl]
              · simp [List.nodup_append, h2, hmem]
              · intro u hu
                rcases List.mem_append.mp hu with hu | hu
                · exact h3 u hu
                · rw [List.mem_singleton.mp hu]
                  exact hsome
              · intro u hu
                rcases List.mem_append.mp hu with hu | hu
                · have hne : u ≠ current := fun he => hmem (he ▸ hu)
                  rw [count_append_singleton, h5 u hu, if_neg hne]
                · rw [List.mem_singleton.mp hu]
                  rw [count_append_singleton, if_pos rfl,
                      List.count_eq_zero.mpr hlog]
              · intro u hu hin
                have hnc : u ∉ acc.crawled := fun hc => hu (List.mem_append.mpr (.inl hc))
                have hne : u ≠ current := fun he => hu (by simp [he])
                rcases List.mem_append.mp hin with hin | hin
                · exact h6 u hnc hin
                · exact absurd (List.mem_singleton.mp hin) hne
              · simp only [List.length_append, List.length_singleton]
                omega
            | none =>
              apply ih
              refine ⟨h1, h2, h3, ?_, ?_, h7⟩
              · intro u hu
                have hne : u ≠ current := fun he => hmem (he ▸ hu)
                rw [count_append_singleton, h5 u hu, if_neg hne]
              · intro u hu hin
                rcases List.mem_append.mp hin with hin | hin
                · exact h6 u hu hin
                · rw [List.mem_singleton.mp hin]
                  exact crawl_page_eq_none hcp
          · have hdom2 : is_same_domain current domain = false := by
              simpa using hdom
            simp only [hdom2, if_false, Bool.false_eq_true]
            exact ih rest _ h
      · simp only [hlt, if_false]
        exact h

/-- The invariant holds of the empty initial state, hence of the final state of
every crawl. -/
theorem crawl_final_inv (net : String → Option Fetched) (uj : String → String → Option String)
    (max_pages fuel : Nat) (start_url : String) :
    CrawlInv net max_pages (crawl_final net uj max_pages fuel start_url) := by
  apply crawlLoop_inv
  exact ⟨rfl, List.nodup_nil, by simp [initAcc], by simp [initAcc],
         by simp [initAcc], by simp [initAcc]⟩

/-- C1: every crawl returns at most `max_pages` pages, for every network and
urljoin oracle (including a urljoin that raises), start URL, elapsed time, and
fuel. -/
theorem c1_crawl_page_cap (net : String → Option Fetched) (uj : String → String → Option String)
    (elapsed : ℚ) (max_pages fuel : Nat) (start_url : String) :
    (crawl_website net uj elapsed max_pages fuel start_url).pages.length ≤ max_pages := by
  obtain ⟨h1, -, -, -, -, h7⟩ := crawl_final_inv net uj max_pages fuel start_url
  have hlen : (crawl_final net uj max_pages fuel start_url).pages.length
      = (crawl_final net uj max_pages fuel start_url).crawled.length := by
    rw [← h1, List.length_map]
  show (crawl_final net uj max_pages fuel start_url).pages.length ≤ max_pages
  omega

/-- C2 (the program violates the claim): `visited ∩ broken = ∅` fails. The
source `try` (lines 85-103) also spans link resolution, and `urljoin` raises
`ValueError: Invalid IPv6 URL` on the href `http://[::1` — which passes the
link-extraction filter — AFTER `pages.append` (line 87) and `crawled.add`
(line 88); the handler at line 103 then appends the same, already visited,
URL to `broken_links`. In this concrete run the start URL is returned both as
a crawled page and as a broken link, though it is still fetched only once
(the raise happens after the fetch), so the never-refetched part survives. -/
theorem c2_visited_url_also_broken :
    (crawl_website netBadLink ujValueError 0 50 5 "http://a.com/").pages.map PageInfo.url
      = ["http://a.com/"]
    ∧ (crawl_website netBadLink ujValueError 0 50 5 "http://a.com/").broken_links
      = ["http://a.com/"]
    ∧ (crawl_final netBadLink ujValueError 50 5 "http://a.com/").fetch_log.count
        "http://a.com/" = 1 :=
  ⟨by decide, by decide, by decide⟩

/-- Updating one bucket's value does not change the key list. -/
theorem assocUpdate_keys (k : String) (f : List String → List String) :
    ∀ l : List (String × List String), (assocUpdate k f l).map Prod.fst = l.map Prod.fst := by
  intro l
  induction l with
  | nil => rfl
  | cons kv rest ih =>
    obtain ⟨k', v⟩ := kv
    by_cases hk : k' == k
    · simp [assocUpdate, hk]
    · simp [assocUpdate, hk, ih]

/-- Members of an updated association list: either an untouched old entry, or
the updated bucket of the key, whose new value is `f` of an old value. -/
theorem assocUpdate_mem {k : String} {f : List String → List String}
    {t : String} {v : List String} :
    ∀ {l : List (String × List String)}, (t, v) ∈ assocUpdate k f l →
      (t, v) ∈ l ∨ (t = k ∧ ∃ v₀, (t, v₀) ∈ l ∧ v = f v₀) := by
  intro l
  induction l with
  | nil => intro h; exact absurd h (by simp [assocUpdate])
  | cons kv rest ih =>
    obtain ⟨k', v'⟩ := kv
    by_cases hk : k' == k
    · have hk' : k' = k := by simpa [beq_iff_eq] using hk
      simp only [assocUpdate, hk, if_true]
      intro h
      rcases List.mem_cons.mp h with h | h
      · obtain ⟨he1, he2⟩ := Prod.mk.injEq .. ▸ h
        right
        refine ⟨he1.trans hk', v', ?_, he2⟩
        rw [he1]
        exact List.mem_cons_self _ _
      · left
        exact List.mem_cons_of_mem _ h
    · simp only [assocUpdate, hk, if_false, Bool.false_eq_true]
      intro h
      rcases List.mem_cons.mp h with h | h
      · left
        rw [h]
        exact List.mem_cons_self _ _
      · rcases ih h with h | ⟨ht, v₀, hv₀, hfv⟩
        · left
          exact List.mem_cons_of_mem _ h
        · right
          exact ⟨ht, v₀, List.mem_cons_of_mem _ hv₀, hfv⟩

/-- Folding the funnel step never changes the key list. -/
theorem funnel_fold_keys :
    ∀ (ps : List PageInfo) (acc : List (String × List String)),
      (ps.foldl funnelStep acc).map Prod.fst = acc.map Prod.fst := by
  intro ps
  induction ps with
  | nil => intro acc; rfl
  | cons p ps ih =>
    intro acc
    rw [List.foldl_cons, ih]
    unfold funnelStep
    split
    · rw [assocUpdate_keys]
    · rfl

/-- Folding the funnel step only ever adds URLs of processed pages to the
bucket of their own page type. -/
theorem funnel_fold_sound (pages0 : List PageInfo) :
    ∀ (ps : List PageInfo) (acc : List (String × List String)),
      (∀ p ∈ ps, p ∈ pages0) →
      (∀ t v, (t, v) ∈ acc → ∀ u ∈ v, ∃ p, p ∈ pages0 ∧ p.url = u ∧ p.page_type = t) →
      ∀ t v, (t, v) ∈ ps.foldl funnelStep acc → ∀ u ∈ v,
        ∃ p, p ∈ pages0 ∧ p.url = u ∧ p.page_type = t := by
  intro ps
  induction ps with
  | nil => intro acc _ hacc; exact hacc
  | cons p ps ih =>
    intro acc hsub hacc
    rw [List.foldl_cons]
    apply ih
    · intro q hq
      exact hsub q (List.mem_cons_of_mem _ hq)
    · intro t v hm u hu
      unfold funnelStep at hm
      by_cases hc : (acc.map Prod.fst).contains p.page_type
      · rw [if_pos hc] at hm
        rcases assocUpdate_mem hm with hm | ⟨ht, v₀, hv₀, hfv⟩
        · exact hacc t v hm u hu
        · subst hfv
          rcases List.mem_append.mp hu with hu | hu
          · exact hacc t v₀ hv₀ u hu
          · refine ⟨p, hsub p (List.mem_cons_self _ _), ?_, ht ▸ rfl⟩
            rw [List.mem_singleton.mp hu]
      · rw [if_neg hc] at hm
        exact hacc t v hm u hu

/-- C9: the returned funnel grouping has exactly the six conversion-relevant
keys, in source order, even when all buckets are empty; every URL in a bucket
is the URL of a crawled page whose `page_type` is that bucket's key; and a page
of any other type (about, content, general) appears in no bucket. -/
theorem c9_funnel_pages (net : String → Option Fetched) (uj : String → String → Option String)
    (elapsed : ℚ) (max_pages fuel : Nat) (start_url : String) :
    (crawl_website net uj elapsed max_pages fuel start_url).funnel_pages.map Prod.fst
      = ["landing", "product", "checkout", "confirmation", "signup", "contact"]
    ∧ (∀ t v, (t, v) ∈ (crawl_website net uj elapsed max_pages fuel start_url).funnel_pages →
        ∀ u ∈ v, ∃ p, p ∈ (crawl_website net uj elapsed max_pages fuel start_url).pages
          ∧ p.url = u ∧ p.page_type = t)
    ∧ (∀ p ∈ (crawl_website net uj elapsed max_pages fuel start_url).pages,
        p.page_type ∉ ["landing", "product", "checkout", "confirmation", "signup", "contact"] →
        ∀ t v, (t, v) ∈ (crawl_website net uj elapsed max_pages fuel start_url).funnel_pages →
          p.url ∉ v) := by
  have hkeys : (crawl_website net uj elapsed max_pages fuel start_url).funnel_pages.map Prod.fst
      = ["landing", "product", "checkout", "confirmation", "signup", "contact"] := by
    show (identify_funnel_pages _).map Prod.fst = _
    unfold identify_funnel_pages
    rw [funnel_fold_keys]
    rfl
  have hsound : ∀ t v,
      (t, v) ∈ (crawl_website net uj elapsed max_pages fuel start_url).funnel_pages →
      ∀ u ∈ v, ∃ p, p ∈ (crawl_website net uj elapsed max_pages fuel start_url).pages
        ∧ p.url = u ∧ p.page_type = t := by
    intro t v hm u hu
    have := funnel_fold_sound (crawl_final net uj max_pages fuel start_url).pages
      (crawl_final net uj max_pages fuel start_url).pages funnel_init
      (fun p hp => hp) (by intro t' v' hm' u' hu'; fin_cases hm' <;> simp_all [funnel_init])
      t v hm u hu
    exact this
  refine ⟨hkeys, hsound, ?_⟩
  intro p hp hnot t v hm hu
  obtain ⟨p', hp', hpu', hpt'⟩ := hsound t v hm p.url hu
  obtain ⟨h1, h2, -, -, -, -⟩ := crawl_final_inv net uj max_pages fuel start_url
  have hnodup : ((crawl_final net uj max_pages fuel start_url).pages.map PageInfo.url).Nodup := by
    rw [h1]; exact h2
  have hpp : p = p' := by
    have := List.inj_on_of_nodup_map hnodup
    exact (this hp hp' hpu'.symm).symm ▸ rfl
  have htkeys : t ∈ ["landing", "product", "checkout", "confirmation", "signup", "contact"] := by
    rw [← hkeys]
    exact List.mem_map.mpr ⟨(t, v), hm, rfl⟩
  apply hnot
  rw [← hpt', ← hpp] at htkeys
  exact htkeys

/-- C9 witness: in a crawl whose one page is a landing page, the landing bucket
holds its URL, which is the URL of a landing-typed crawled page. -/
theorem c9_funnel_pages_witness :
    ∃ p, p ∈ (crawl_website netC9 ujId 0 50 5 "http://a.com/landing").pages
      ∧ p.url = "http://a.com/landing" ∧ p.page_type = "landing" :=
  (c9_funnel_pages netC9 ujId 0 50 5 "http://a.com/landing").2.1
    "landing" ["http://a.com/landing"] (by decide) "http://a.com/landing" (by decide)

/-- C10: the external-links list is not deduplicated. The reported
`crawl_stats` external count is always the plain length of the list, i.e. it
counts occurrences; in the concrete run whose one page links to the same
off-domain URL twice, that URL appears twice in `external_links` (once per
discovery) while only one distinct external URL exists; and dequeuing an
off-domain frontier URL appends it to the list as well (the loop's other
append site). -/
theorem c10_external_links_multiplicity :
    (∀ (net : String → Option Fetched) (uj : String → String → Option String)
        (elapsed : ℚ) (max_pages fuel : Nat) (start_url : String),
      (crawl_website net uj elapsed max_pages fuel start_url).crawl_stats.external_links
        = (crawl_website net uj elapsed max_pages fuel start_url).external_links.length)
    ∧ (crawl_website netC10 ujId 0 50 5 "http://a.com/").external_links
        = ["http://ext.com/x", "http://ext.com/x"]
    ∧ (crawl_website netC10 ujId 0 50 5 "http://a.com/").crawl_stats.external_links = 2
    ∧ (crawl_website netC10 ujId 0 50 5 "http://a.com/").external_links.dedup.length = 1
    ∧ (∀ (net : String → Option Fetched) (uj : String → String → Option String)
        (domain : String) (max_pages fuel : Nat) (current : String)
        (rest : List String) (acc : CrawlAcc),
      acc.crawled.length < max_pages → current ∉ acc.crawled →
      is_same_domain current domain = false →
      crawlLoop net uj domain max_pages (fuel + 1) (current :: rest) acc
        = crawlLoop net uj domain max_pages fuel rest
            { acc with external_links := acc.external_links ++ [current] }) := by
  refine ⟨fun _ _ _ _ _ _ => rfl, by decide, by decide, by decide, ?_⟩
  intro net uj domain max_pages fuel current rest acc hlt hmem hdom
  simp only [crawlLoop, hlt, if_true, hmem, if_false, hdom, Bool.false_eq_true]

/-- C10 witness: the dequeue-append site fires on a frontier holding an
off-domain URL. -/
theorem c10_external_links_multiplicity_witness :
    crawlLoop netC10 ujId "http://a.com" 50 1 ["http://ext.com/x"] initAcc
      = crawlLoop netC10 ujId "http://a.com" 50 0 []
          { initAcc with external_links := initAcc.external_links ++ ["http://ext.com/x"] } :=
  c10_external_links_multiplicity.2.2.2.2 netC10 ujId "http://a.com" 50 0
    "http://ext.com/x" [] initAcc (by decide) (by decide) (by decide)
